import Mathlib

/-!
Verification of the section-extraction subsystem of the `patina` firmware
repository (`src/sdk/patina_ffs_extractors`): the CRC32 integrity-check
extractor (`crc32.rs`), the LZMA decompression extractor (`lzma.rs`) and the
composite dispatcher (`composite.rs`), embedded shallowly over a byte-list
data model. Bytes are natural numbers; `u8`/`u32`/`u64` arithmetic is
modelled on `Nat` with explicit reductions modulo 256 / 2^32 / 2^64 where the
Rust types bound the values.
-/

namespace Patina

/-- The `FirmwareFileSystemError` variants relevant to extraction
(from the `patina_ffs` error taxonomy; spec §7). -/
inductive FfsError where
  | Unsupported : FfsError
  | DataCorrupt : FfsError
deriving DecidableEq, Repr

/-- Observable outcome of one call to `SectionExtractor::extract`:
`ok` with the owned decoded bytes, `err` with a `FirmwareFileSystemError`,
or `panic` when the Rust code would panic (e.g. a failed `unwrap`). -/
inductive ExtractResult where
  | ok : List Nat → ExtractResult
  | err : FfsError → ExtractResult
  | panic : ExtractResult
deriving DecidableEq, Repr

/-- A 16-byte EFI type identifier (`efi::Guid`), modelled as its 16-byte
little-endian wire representation; equality is exact byte-wise equality,
matching Rust's derived `==` on `efi::Guid`. -/
abbrev Guid : Type := List Nat

/-- Modelled from the spec: the section header variant interpreted by this
core. `patina_ffs::section::SectionHeader` is not under `src/`; spec §3
says the header is "a tagged variant; the only variant this core interprets
is type-identified (carrying a 16-byte globally-unique type identifier, a
variable-length algorithm-specific header-extension byte sequence, and a
declared content length); other variants are opaque to this core".
`Other` stands for all non-GuidDefined variants, with an opaque tag and its
own declared content length. -/
inductive SectionHeader where
  | GuidDefined : Guid → List Nat → Nat → SectionHeader
  | Other : Nat → Nat → SectionHeader
deriving DecidableEq, Repr

/-- Declared content length of a header. -/
def SectionHeader.declaredLen : SectionHeader → Nat
  | .GuidDefined _ _ n => n
  | .Other _ n => n

/-- Modelled from the spec: a `patina_ffs::section::Section` (not under
`src/`), spec §3: a header plus backing content bytes. -/
structure Section where
  header : SectionHeader
  data : List Nat
deriving DecidableEq, Repr

/-- Modelled from the spec: `Section::try_content_as_slice` (not under
`src/`), spec §3: "accessing it can fail if the declared length is
inconsistent with the actual backing storage (signals a corruption error,
not a panic)". -/
def Section.tryContentAsSlice (s : Section) : Except FfsError (List Nat) :=
  if s.header.declaredLen = s.data.length then .ok s.data else .error .DataCorrupt

/-- Little-endian byte-sequence decoding (`uN::from_le_bytes`): byte `i`
contributes with weight `256^i`; each byte is reduced mod 256 as `u8` is. -/
def leBytesToNat : List Nat → Nat
  | [] => 0
  | b :: rest => b % 256 + 256 * leBytesToNat rest

/-- Little-endian encoding of a `u32` (`u32::to_le_bytes`). -/
def u32ToLeBytes (x : Nat) : List Nat :=
  [x % 256, x / 256 % 256, x / 65536 % 256, x / 16777216 % 256]

theorem u32ToLeBytes_length (x : Nat) : (u32ToLeBytes x).length = 4 := rfl

theorem leBytesToNat_u32ToLeBytes (x : Nat) (hx : x < 4294967296) :
    leBytesToNat (u32ToLeBytes x) = x := by
  simp only [u32ToLeBytes, leBytesToNat]
  omega

/-! ## CRC-32 (IEEE 802.3), as computed by `crc32fast::hash` -/

/-- One bit-step of the reflected CRC-32 computation with the reversed
IEEE 802.3 polynomial `0xEDB88320`. -/
def crc32Round (c : Nat) : Nat :=
  if c % 2 = 1 then (c / 2) ^^^ 0xEDB88320 else c / 2

/-- Fold one input byte into the running CRC state (8 bit-steps). -/
def crc32UpdateByte (c b : Nat) : Nat :=
  crc32Round (crc32Round (crc32Round (crc32Round
    (crc32Round (crc32Round (crc32Round (crc32Round (c ^^^ b % 256))))))))

/-- CRC-32 (IEEE 802.3) of a byte sequence: initial value `0xFFFFFFFF`,
final xor `0xFFFFFFFF`; the checksum `crc32fast::hash` computes. -/
def crc32 (data : List Nat) : Nat :=
  (data.foldl crc32UpdateByte 0xFFFFFFFF) ^^^ 0xFFFFFFFF

theorem xor_lt_u32 {x y : Nat} (hx : x < 4294967296) (hy : y < 4294967296) :
    x ^^^ y < 4294967296 := by
  have h32 : (4294967296 : Nat) = 2 ^ 32 := by norm_num
  rw [h32] at hx hy ⊢
  exact Nat.bitwise_lt hx hy

theorem crc32Round_lt {c : Nat} (hc : c < 4294967296) :
    crc32Round c < 4294967296 := by
  unfold crc32Round
  split
  · exact xor_lt_u32 (by omega) (by norm_num)
  · omega

theorem crc32UpdateByte_lt {c : Nat} (b : Nat) (hc : c < 4294967296) :
    crc32UpdateByte c b < 4294967296 := by
  unfold crc32UpdateByte
  have h0 : c ^^^ b % 256 < 4294967296 := xor_lt_u32 hc (by omega)
  exact crc32Round_lt (crc32Round_lt (crc32Round_lt (crc32Round_lt
    (crc32Round_lt (crc32Round_lt (crc32Round_lt (crc32Round_lt h0)))))))

theorem crc32_foldl_lt (data : List Nat) {c : Nat} (hc : c < 4294967296) :
    data.foldl crc32UpdateByte c < 4294967296 := by
  induction data generalizing c with
  | nil => exact hc
  | cons b rest ih => exact ih (crc32UpdateByte_lt b hc)

theorem crc32_lt (data : List Nat) : crc32 data < 4294967296 :=
  xor_lt_u32 (crc32_foldl_lt data (by norm_num)) (by norm_num)

/-! ## Type-identifier constants -/

/-- Modelled from the spec: the designated checksum-codec identifier
`fw_fs::guid::CRC32_SECTION` (declared in the `patina` crate outside
`src/`); spec §4.2/§6: one fixed 16-byte identifier constant for the
checksum codec, disjoint from the decompression codecs' identifiers.
Byte representation of GUID `FC1BCDB0-7D31-49AA-936A-A4600D9DD083`. -/
def CRC32_SECTION : Guid :=
  [0xB0, 0xCD, 0x1B, 0xFC, 0x31, 0x7D, 0xAA, 0x49,
   0x93, 0x6A, 0xA4, 0x60, 0x0D, 0x9D, 0xD0, 0x83]

/-- Constant `LZMA_SECTION_GUID` from `lzma.rs`: byte representation of GUID
`EE4E5898-3914-4259-9D6E-DC7BD79403CF`
(`efi::Guid::from_fields(0xEE4E5898, 0x3914, 0x4259, 0x9D, 0x6E,
&[0xDC, 0x7B, 0xD7, 0x94, 0x03, 0xCF])`). -/
def LZMA_SECTION_GUID : Guid :=
  [0x98, 0x58, 0x4E, 0xEE, 0x14, 0x39, 0x59, 0x42,
   0x9D, 0x6E, 0xDC, 0x7B, 0xD7, 0x94, 0x03, 0xCF]

/-- Constant `LZMA_UNKNOWN_UNPACKED_SIZE_MAGIC_VALUE` from `lzma.rs`: the all-ones
64-bit sentinel meaning "uncompressed size unknown ahead of time". -/
def LZMA_UNKNOWN_UNPACKED_SIZE_MAGIC_VALUE : Nat := 0xFFFFFFFFFFFFFFFF

/-! ## CRC32 extractor (`crc32.rs`, `Crc32SectionExtractor::extract`) -/

/-- Function `Crc32SectionExtractor::extract` from `crc32.rs`. On a GuidDefined
header whose identifier equals `CRC32_SECTION`: header-extension shorter
than 4 bytes is `DataCorrupt`; then
`u32::from_le_bytes((**crc_header).try_into().unwrap())` succeeds only when
the header-extension is exactly 4 bytes and panics otherwise; then the
content is fetched via `try_content_as_slice` (`?` propagates its error);
a checksum mismatch is `DataCorrupt`, a match returns a copy of the
content. Any other header or identifier is `Unsupported`. -/
def crc32Extract (s : Section) : ExtractResult :=
  match s.header with
  | .GuidDefined guid crcHeader _ =>
    if guid = CRC32_SECTION then
      if crcHeader.length < 4 then .err .DataCorrupt
      else if crcHeader.length = 4 then
        match s.tryContentAsSlice with
        | .error e => .err e
        | .ok content =>
          if leBytesToNat crcHeader ≠ crc32 content then .err .DataCorrupt
          else .ok content
      else .panic
    else .err .Unsupported
  | .Other _ _ => .err .Unsupported

/-! ## LZMA extractor (`lzma.rs`, `LzmaSectionExtractor::extract`) -/

/-- A Rust `Vec<u8>`: observable contents plus the capacity it was
allocated with (capacity never influences contents). -/
structure RVec where
  contents : List Nat
  cap : Nat
deriving DecidableEq, Repr

/-- Models `Vec::new()`. -/
def RVec.new : RVec := ⟨[], 0⟩

/-- Models `Vec::with_capacity(n)`. -/
def RVec.withCapacity (n : Nat) : RVec := ⟨[], n⟩

/-- The declared-uncompressed-size read in `lzma.rs`:
`u64::from_le_bytes(data.get(5..13).ok_or(DataCorrupt)?.try_into().unwrap())`
— the 8-byte little-endian field at payload offset 5, `none` when the
payload is shorter than 13 bytes. -/
def lzmaUnpackedSize (data : List Nat) : Option Nat :=
  if 13 ≤ data.length then some (leBytesToNat (List.take 8 (List.drop 5 data)))
  else none

/-- The output buffer chosen in `lzma.rs` before decompression:
`Vec::new()` when the size field holds the unknown-size sentinel,
`Vec::with_capacity(unpacked_size)` otherwise. -/
def lzmaChosenBuffer (data : List Nat) : Option RVec :=
  (lzmaUnpackedSize data).map fun sz =>
    if sz = LZMA_UNKNOWN_UNPACKED_SIZE_MAGIC_VALUE then RVec.new
    else RVec.withCapacity sz

/-- Function `LzmaSectionExtractor::extract` from `lzma.rs`, parameterized by the
raw-stream decoder (Modelled from the spec: `patina_lzma_rs::lzma_decompress`
is an external crate not under `src/`; per spec §4.3/§8 the decoder consumes
the whole payload and appends its decoded bytes to the output buffer,
`none` standing for a decoder rejection). On a GuidDefined header whose
identifier equals `LZMA_SECTION_GUID`: the content is fetched via
`try_content_as_slice`; a payload shorter than 13 bytes is `DataCorrupt`;
otherwise the output buffer is chosen from the size field, the decoder
runs over the payload, a decoder error maps to `DataCorrupt` and success
returns the buffer contents. Any other header or identifier is
`Unsupported`. -/
def lzmaExtract (dec : List Nat → Option (List Nat)) (s : Section) : ExtractResult :=
  match s.header with
  | .GuidDefined guid _ _ =>
    if guid = LZMA_SECTION_GUID then
      match s.tryContentAsSlice with
      | .error e => .err e
      | .ok data =>
        match lzmaUnpackedSize data with
        | none => .err .DataCorrupt
        | some sz =>
          let buf := if sz = LZMA_UNKNOWN_UNPACKED_SIZE_MAGIC_VALUE then RVec.new
                     else RVec.withCapacity sz
          match dec data with
          | none => .err .DataCorrupt
          | some out => .ok (buf.contents ++ out)
    else .err .Unsupported
  | .Other _ _ => .err .Unsupported

/-! ## Composite dispatcher (`composite.rs`) -/

/-- The dispatch loop of `CompositeSectionExtractor::extract`: each
configured extractor is tried in order; `Err(Unsupported)` falls through to
the next, any other outcome is returned at once; an exhausted list yields
`Err(Unsupported)`. -/
def compositeExtract : List (Section → ExtractResult) → Section → ExtractResult
  | [], _ => .err .Unsupported
  | e :: rest, s =>
    match e s with
    | .err .Unsupported => compositeExtract rest s
    | r => r

/-- Instrumented dispatch: same loop, additionally counting how many
extractors were invoked (the invoked extractors are exactly the first
`count` of the list). -/
def compositeRun : List (Section → ExtractResult) → Section → ExtractResult × Nat
  | [], _ => (.err .Unsupported, 0)
  | e :: rest, s =>
    match e s with
    | .err .Unsupported =>
      let p := compositeRun rest s
      (p.1, p.2 + 1)
    | r => (r, 1)

/-- The result of the first extractor in the list returning something other
than `Err(Unsupported)`, if any. -/
def firstHit : List (Section → ExtractResult) → Section → Option ExtractResult
  | [], _ => none
  | e :: rest, s =>
    match e s with
    | .err .Unsupported => firstHit rest s
    | r => some r

/-! ## Extractor instances (the Rust unit structs and the composite) -/

/-- Struct `Crc32SectionExtractor` (`crc32.rs`): a fieldless unit struct — it
carries no state. -/
structure Crc32SectionExtractor where
deriving DecidableEq, Repr

/-- Models `Crc32SectionExtractor::new()`. -/
def Crc32SectionExtractor.new : Crc32SectionExtractor := {}

/-- The `SectionExtractor` impl for `Crc32SectionExtractor`: `&self` is
never consulted. -/
def Crc32SectionExtractor.extract (_ : Crc32SectionExtractor) (s : Section) :
    ExtractResult :=
  crc32Extract s

/-- Struct `LzmaSectionExtractor` (`lzma.rs`): a fieldless unit struct. -/
structure LzmaSectionExtractor where
deriving DecidableEq, Repr

/-- Models `LzmaSectionExtractor::new()`. -/
def LzmaSectionExtractor.new : LzmaSectionExtractor := {}

/-- The `SectionExtractor` impl for `LzmaSectionExtractor`, with the
decoder passed explicitly (in Rust it is the fixed external function
`patina_lzma_rs::lzma_decompress`). -/
def LzmaSectionExtractor.extract (_ : LzmaSectionExtractor)
    (dec : List Nat → Option (List Nat)) (s : Section) : ExtractResult :=
  lzmaExtract dec s

/-- Struct `CompositeSectionExtractor` (`composite.rs`) over the extractors
present under `src/` (the `brotli` field is feature-gated and its module is
not part of the sources; the `crc32` and `lzma` fields are kept in the
source's dispatch order). -/
structure CompositeSectionExtractor where
  crc32 : Crc32SectionExtractor
  lzma : LzmaSectionExtractor
deriving DecidableEq, Repr

/-- Models `CompositeSectionExtractor::new()`. -/
def CompositeSectionExtractor.new : CompositeSectionExtractor := ⟨{}, {}⟩

/-- Function `CompositeSectionExtractor::extract` from `composite.rs`: try `crc32`,
fall through on `Err(Unsupported)`, else return its outcome; then the same
for `lzma`; else `Err(Unsupported)`. -/
def CompositeSectionExtractor.extract (self : CompositeSectionExtractor)
    (dec : List Nat → Option (List Nat)) (s : Section) : ExtractResult :=
  match self.crc32.extract s with
  | .err .Unsupported =>
    match self.lzma.extract dec s with
    | .err .Unsupported => .err .Unsupported
    | r => r
  | r => r

/-! ## Section builders (mirroring the test builders in `lib.rs`) -/

/-- Builder `create_crc32_section` from `lib.rs` tests: a GuidDefined section with
the CRC32 identifier, the given header-extension bytes and the content,
declared length equal to the content length. -/
def mkCrc32Section (content ext : List Nat) : Section :=
  ⟨.GuidDefined CRC32_SECTION ext content.length, content⟩

/-- Builder `create_lzma_section` from `lib.rs` tests: a GuidDefined section with
the LZMA identifier, an empty header-extension and the compressed payload,
declared length equal to the payload length. -/
def mkLzmaSection (data : List Nat) : Section :=
  ⟨.GuidDefined LZMA_SECTION_GUID [] data.length, data⟩

/-- A decoder that rejects every stream (used to instantiate theorems at
concrete inputs). -/
def noneDecoder : List Nat → Option (List Nat) := fun _ => none

/-- Two successive invocations of one extraction function on the same
section value (the section, being a value, is the same at both calls). -/
def extractTwice (f : Section → ExtractResult) (s : Section) :
    ExtractResult × ExtractResult :=
  (f s, f s)

/-! ## Composite dispatcher lemmas -/

theorem compositeExtract_eq_unsupported_iff
    (es : List (Section → ExtractResult)) (s : Section) :
    compositeExtract es s = .err .Unsupported ↔
      ∀ e ∈ es, e s = .err .Unsupported := by
  induction es with
  | nil => simp [compositeExtract]
  | cons e rest ih =>
    rcases h : e s with bytes | er | _
    · simp [compositeExtract, h]
    · cases er
      · simp [compositeExtract, h, ih]
      · simp [compositeExtract, h]
    · simp [compositeExtract, h]

theorem firstHit_spec (es : List (Section → ExtractResult)) (s : Section)
    (r : ExtractResult) (h : firstHit es s = some r) :
    compositeExtract es s = r := by
  induction es with
  | nil => simp [firstHit] at h
  | cons e rest ih =>
    rcases he : e s with bytes | er | _
    · simp [firstHit, he] at h
      subst h
      simp [compositeExtract, he]
    · cases er
      · simp [firstHit, he] at h
        simp [compositeExtract, he, ih h]
      · simp [firstHit, he] at h
        subst h
        simp [compositeExtract, he]
    · simp [firstHit, he] at h
      subst h
      simp [compositeExtract, he]

theorem compositeRun_fst (es : List (Section → ExtractResult)) (s : Section) :
    (compositeRun es s).1 = compositeExtract es s := by
  induction es with
  | nil => rfl
  | cons e rest ih =>
    rcases he : e s with bytes | er | _
    · simp [compositeRun, compositeExtract, he]
    · cases er
      · simp [compositeRun, compositeExtract, he, ih]
      · simp [compositeRun, compositeExtract, he]
    · simp [compositeRun, compositeExtract, he]

theorem compositeRun_count_le (es : List (Section → ExtractResult)) (s : Section)
    (i : Nat)
    (h : ∃ j, ∃ hj : j < es.length, j < i ∧ es.get ⟨j, hj⟩ s ≠ .err .Unsupported) :
    (compositeRun es s).2 ≤ i := by
  induction es generalizing i with
  | nil =>
    obtain ⟨j, hj, _, _⟩ := h
    exact absurd hj (Nat.not_lt_zero j)
  | cons e rest ih =>
    obtain ⟨j, hj, hji, hne⟩ := h
    rcases he : e s with bytes | er | _
    · simp [compositeRun, he]; omega
    · cases er
      · cases j with
        | zero => exact absurd he hne
        | succ k =>
          have hk : k < rest.length := Nat.lt_of_succ_lt_succ hj
          have hrest : (compositeRun rest s).2 ≤ i - 1 :=
            ih (i - 1) ⟨k, hk, by omega, by simpa using hne⟩
          simp [compositeRun, he]
          omega
      · simp [compositeRun, he]; omega
    · simp [compositeRun, he]; omega

theorem composite_concrete_eq (dec : List Nat → Option (List Nat)) (s : Section) :
    CompositeSectionExtractor.new.extract dec s
      = compositeExtract [crc32Extract, lzmaExtract dec] s := by
  unfold CompositeSectionExtractor.extract CompositeSectionExtractor.new
    Crc32SectionExtractor.extract LzmaSectionExtractor.extract
  rcases h1 : crc32Extract s with b1 | e1 | _
  · simp [compositeExtract, h1]
  · cases e1
    · rcases h2 : lzmaExtract dec s with b2 | e2 | _
      · simp [compositeExtract, h1, h2]
      · cases e2 <;> simp [compositeExtract, h1, h2]
      · simp [compositeExtract, h1, h2]
    · simp [compositeExtract, h1]
  · simp [compositeExtract, h1]

/-! ## Claim theorems -/

/-- Claim C1: for every section, the composite dispatcher returns
Unsupported iff every configured extractor individually returns Unsupported
for that section; otherwise it returns exactly the result of the first
extractor in its fixed order returning something other than Unsupported;
extractors after that one are never invoked (the invocation count of the
instrumented dispatch never exceeds the position after the first match);
and the concrete `CompositeSectionExtractor` is this dispatch over its
configured extractors in source order. -/
theorem composite_dispatch_correct (es : List (Section → ExtractResult))
    (dec : List Nat → Option (List Nat)) (s : Section) :
    (compositeExtract es s = .err .Unsupported ↔
      ∀ e ∈ es, e s = .err .Unsupported)
    ∧ (∀ r, firstHit es s = some r → compositeExtract es s = r)
    ∧ (compositeRun es s).1 = compositeExtract es s
    ∧ (∀ i, (∃ j, ∃ hj : j < es.length, j < i ∧
          es.get ⟨j, hj⟩ s ≠ .err .Unsupported) → (compositeRun es s).2 ≤ i)
    ∧ CompositeSectionExtractor.new.extract dec s
        = compositeExtract [crc32Extract, lzmaExtract dec] s :=
  ⟨compositeExtract_eq_unsupported_iff es s,
   fun r h => firstHit_spec es s r h,
   compositeRun_fst es s,
   fun i h => compositeRun_count_le es s i h,
   composite_concrete_eq dec s⟩

/-- Witness for C1 at a concrete configuration and section: a two-extractor
chain where the first (CRC32) extractor claims the section, dispatch
returns its result and invokes only one extractor. -/
theorem composite_dispatch_correct_witness :
    (compositeExtract [crc32Extract, lzmaExtract noneDecoder]
        (mkCrc32Section [] [1, 0, 0, 0]) = .err .Unsupported ↔
      ∀ e ∈ [crc32Extract, lzmaExtract noneDecoder],
        e (mkCrc32Section [] [1, 0, 0, 0]) = .err .Unsupported)
    ∧ (∀ r, firstHit [crc32Extract, lzmaExtract noneDecoder]
          (mkCrc32Section [] [1, 0, 0, 0]) = some r →
        compositeExtract [crc32Extract, lzmaExtract noneDecoder]
          (mkCrc32Section [] [1, 0, 0, 0]) = r)
    ∧ (compositeRun [crc32Extract, lzmaExtract noneDecoder]
        (mkCrc32Section [] [1, 0, 0, 0])).1
        = compositeExtract [crc32Extract, lzmaExtract noneDecoder]
            (mkCrc32Section [] [1, 0, 0, 0])
    ∧ (∀ i, (∃ j, ∃ hj : j < ([crc32Extract, lzmaExtract noneDecoder] :
            List (Section → ExtractResult)).length, j < i ∧
          ([crc32Extract, lzmaExtract noneDecoder] :
            List (Section → ExtractResult)).get ⟨j, hj⟩
              (mkCrc32Section [] [1, 0, 0, 0]) ≠ .err .Unsupported) →
        (compositeRun [crc32Extract, lzmaExtract noneDecoder]
          (mkCrc32Section [] [1, 0, 0, 0])).2 ≤ i)
    ∧ CompositeSectionExtractor.new.extract noneDecoder
        (mkCrc32Section [] [1, 0, 0, 0])
        = compositeExtract [crc32Extract, lzmaExtract noneDecoder]
            (mkCrc32Section [] [1, 0, 0, 0]) :=
  composite_dispatch_correct [crc32Extract, lzmaExtract noneDecoder]
    noneDecoder (mkCrc32Section [] [1, 0, 0, 0])

/-- Claim C2: for every content byte sequence (including the empty one),
extracting a CRC32-identified section whose header-extension stores the
correct little-endian CRC-32 (IEEE 802.3) of the content returns exactly
the content, unmodified. Stated over all `Nat` lists; `u8` contents are the
lists with entries below 256. -/
theorem crc32_extract_roundtrip (C : List Nat) :
    crc32Extract (mkCrc32Section C (u32ToLeBytes (crc32 C))) = .ok C := by
  have hrt := leBytesToNat_u32ToLeBytes (crc32 C) (crc32_lt C)
  simp [crc32Extract, mkCrc32Section, Section.tryContentAsSlice,
    SectionHeader.declaredLen, u32ToLeBytes_length, hrt]

/-- Claim C3: for every content and every 4-byte stored checksum whose
value differs from the correct CRC-32 of the content, extraction of the
CRC32-identified section returns `DataCorrupt` — by constructor
disjointness it neither succeeds, nor panics, nor carries content bytes. -/
theorem crc32_extract_mismatch (C ext : List Nat) (hlen : ext.length = 4)
    (hne : leBytesToNat ext ≠ crc32 C) :
    crc32Extract (mkCrc32Section C ext) = .err .DataCorrupt := by
  simp [crc32Extract, mkCrc32Section, Section.tryContentAsSlice,
    SectionHeader.declaredLen, hlen, hne]

/-- Witness for C3: empty content (correct CRC-32 is 0) with stored
checksum value 1. -/
theorem crc32_extract_mismatch_witness :
    ([1, 0, 0, 0] : List Nat).length = 4
    ∧ leBytesToNat [1, 0, 0, 0] ≠ crc32 []
    ∧ crc32Extract (mkCrc32Section [] [1, 0, 0, 0]) = .err .DataCorrupt :=
  ⟨by decide, by decide, crc32_extract_mismatch [] [1, 0, 0, 0] (by decide) (by decide)⟩

/-- Claim C4 (failing input): a CRC32-identified section with a 5-byte
header-extension — which contains at least 4 bytes, so the claim requires
the 4-byte field to be read and no panic — makes the extractor panic:
`(**crc_header).try_into().unwrap()` into `[u8; 4]` fails for any
header-extension longer than 4 bytes. -/
theorem crc32_extract_panics_on_five_byte_extension :
    crc32Extract (mkCrc32Section [] [0, 0, 0, 0, 0]) = .panic := by decide

/-- Claim C5: a CRC32-identified section whose header-extension is shorter
than 4 bytes yields `DataCorrupt` (for any declared length and any backing
content), not a crash. -/
theorem crc32_extract_short_extension (ext : List Nat) (n : Nat)
    (data : List Nat) (h : ext.length < 4) :
    crc32Extract ⟨.GuidDefined CRC32_SECTION ext n, data⟩ = .err .DataCorrupt := by
  simp [crc32Extract, h]

/-- Witness for C5: an empty header-extension. -/
theorem crc32_extract_short_extension_witness :
    ([] : List Nat).length < 4
    ∧ crc32Extract ⟨.GuidDefined CRC32_SECTION [] 0, []⟩ = .err .DataCorrupt :=
  ⟨by decide, crc32_extract_short_extension [] 0 [] (by decide)⟩

/-- Claim C6: for every LZMA-identified section whose payload has at least
13 bytes, the extractor reads the 8-byte little-endian declared size at
payload offset 5; the output buffer starts empty in every case, with
capacity 0 when the field holds the all-ones sentinel and capacity equal
to the declared size otherwise; and the extraction result is exactly the
decoder's outcome on the payload — independent of the declared size, which
only drives allocation. -/
theorem lzma_size_field_allocation (dec : List Nat → Option (List Nat))
    (data : List Nat) (h : 13 ≤ data.length) :
    lzmaUnpackedSize data = some (leBytesToNat (List.take 8 (List.drop 5 data)))
    ∧ (lzmaChosenBuffer data).map RVec.contents = some []
    ∧ (lzmaChosenBuffer data).map RVec.cap
        = some (if leBytesToNat (List.take 8 (List.drop 5 data))
              = LZMA_UNKNOWN_UNPACKED_SIZE_MAGIC_VALUE then 0
            else leBytesToNat (List.take 8 (List.drop 5 data)))
    ∧ lzmaExtract dec (mkLzmaSection data)
        = (match dec data with
           | none => .err .DataCorrupt
           | some out => .ok out) := by
  have hsz : lzmaUnpackedSize data
      = some (leBytesToNat (List.take 8 (List.drop 5 data))) := by
    simp [lzmaUnpackedSize, h]
  refine ⟨hsz, ?_, ?_, ?_⟩
  · by_cases hs : leBytesToNat (List.take 8 (List.drop 5 data))
        = LZMA_UNKNOWN_UNPACKED_SIZE_MAGIC_VALUE <;>
      simp [lzmaChosenBuffer, hsz, hs, RVec.new, RVec.withCapacity]
  · by_cases hs : leBytesToNat (List.take 8 (List.drop 5 data))
        = LZMA_UNKNOWN_UNPACKED_SIZE_MAGIC_VALUE <;>
      simp [lzmaChosenBuffer, hsz, hs, RVec.new, RVec.withCapacity]
  · by_cases hs : leBytesToNat (List.take 8 (List.drop 5 data))
        = LZMA_UNKNOWN_UNPACKED_SIZE_MAGIC_VALUE <;>
      cases hdec : dec data <;>
      simp [lzmaExtract, mkLzmaSection, Section.tryContentAsSlice,
        SectionHeader.declaredLen, hsz, hs, hdec, RVec.new, RVec.withCapacity]

/-- Witness for C6: a 13-byte all-zero payload (declared size 0, not the
sentinel) with a decoder that rejects every stream. -/
theorem lzma_size_field_allocation_witness :
    13 ≤ (List.replicate 13 0).length
    ∧ (lzmaUnpackedSize (List.replicate 13 0)
        = some (leBytesToNat (List.take 8 (List.drop 5 (List.replicate 13 0))))
      ∧ (lzmaChosenBuffer (List.replicate 13 0)).map RVec.contents = some []
      ∧ (lzmaChosenBuffer (List.replicate 13 0)).map RVec.cap
          = some (if leBytesToNat (List.take 8 (List.drop 5 (List.replicate 13 0)))
                = LZMA_UNKNOWN_UNPACKED_SIZE_MAGIC_VALUE then 0
              else leBytesToNat (List.take 8 (List.drop 5 (List.replicate 13 0))))
      ∧ lzmaExtract noneDecoder (mkLzmaSection (List.replicate 13 0))
          = (match noneDecoder (List.replicate 13 0) with
             | none => .err .DataCorrupt
             | some out => .ok out)) :=
  ⟨by decide, lzma_size_field_allocation noneDecoder (List.replicate 13 0) (by decide)⟩

/-- Claim C7: for every LZMA-identified section whose payload is shorter
than the 13 bytes of properties plus size field, or whose stream the
decoder rejects, extraction returns `DataCorrupt` — by constructor
disjointness never a panic and never partial output bytes. -/
theorem lzma_extract_corrupt (dec : List Nat → Option (List Nat))
    (data : List Nat) :
    (data.length < 13 → lzmaExtract dec (mkLzmaSection data) = .err .DataCorrupt)
    ∧ (dec data = none → lzmaExtract dec (mkLzmaSection data) = .err .DataCorrupt) := by
  constructor
  · intro h
    have h13 : ¬ 13 ≤ data.length := by omega
    simp [lzmaExtract, mkLzmaSection, Section.tryContentAsSlice,
      SectionHeader.declaredLen, lzmaUnpackedSize, h13]
  · intro h
    by_cases h13 : 13 ≤ data.length
    · simp [lzmaExtract, mkLzmaSection, Section.tryContentAsSlice,
        SectionHeader.declaredLen, lzmaUnpackedSize, h13, h]
    · simp [lzmaExtract, mkLzmaSection, Section.tryContentAsSlice,
        SectionHeader.declaredLen, lzmaUnpackedSize, h13]

/-- Witness for C7: the empty payload is both shorter than 13 bytes and
rejected by the all-rejecting decoder; extraction is `DataCorrupt`. -/
theorem lzma_extract_corrupt_witness :
    (([] : List Nat).length < 13
      ∧ lzmaExtract noneDecoder (mkLzmaSection []) = .err .DataCorrupt)
    ∧ (noneDecoder [] = none
      ∧ lzmaExtract noneDecoder (mkLzmaSection []) = .err .DataCorrupt) :=
  ⟨⟨by decide, (lzma_extract_corrupt noneDecoder []).1 (by decide)⟩,
   ⟨rfl, (lzma_extract_corrupt noneDecoder []).2 rfl⟩⟩

/-- Claim C8: type-identifier matching is exact 16-byte equality. Any
identifier different from the CRC32 constant makes the CRC32 extractor
return Unsupported; any identifier different from the LZMA constant makes
the LZMA extractor return Unsupported; and an identifier matching neither
constant yields Unsupported from the composite as well. -/
theorem guid_matching_exact (g : Guid) (ext : List Nat) (n : Nat)
    (data : List Nat) (dec : List Nat → Option (List Nat)) :
    (g ≠ CRC32_SECTION →
      crc32Extract ⟨.GuidDefined g ext n, data⟩ = .err .Unsupported)
    ∧ (g ≠ LZMA_SECTION_GUID →
      lzmaExtract dec ⟨.GuidDefined g ext n, data⟩ = .err .Unsupported)
    ∧ (g ≠ CRC32_SECTION → g ≠ LZMA_SECTION_GUID →
      compositeExtract [crc32Extract, lzmaExtract dec]
        ⟨.GuidDefined g ext n, data⟩ = .err .Unsupported) := by
  refine ⟨fun h1 => ?_, fun h2 => ?_, fun h1 h2 => ?_⟩
  · simp [crc32Extract, h1]
  · simp [lzmaExtract, h2]
  · simp [compositeExtract, crc32Extract, lzmaExtract, h1, h2]

/-- Witness for C8: an identifier differing from the CRC32 constant only in
its final byte (so a 15-byte prefix match still yields Unsupported), which
also differs from the LZMA constant. -/
theorem guid_matching_exact_witness :
    (([0xB0, 0xCD, 0x1B, 0xFC, 0x31, 0x7D, 0xAA, 0x49,
       0x93, 0x6A, 0xA4, 0x60, 0x0D, 0x9D, 0xD0, 0x84] : Guid) ≠ CRC32_SECTION
      ∧ crc32Extract ⟨.GuidDefined [0xB0, 0xCD, 0x1B, 0xFC, 0x31, 0x7D, 0xAA, 0x49,
          0x93, 0x6A, 0xA4, 0x60, 0x0D, 0x9D, 0xD0, 0x84] [] 0, []⟩
        = .err .Unsupported)
    ∧ (([0xB0, 0xCD, 0x1B, 0xFC, 0x31, 0x7D, 0xAA, 0x49,
       0x93, 0x6A, 0xA4, 0x60, 0x0D, 0x9D, 0xD0, 0x84] : Guid) ≠ LZMA_SECTION_GUID
      ∧ lzmaExtract noneDecoder ⟨.GuidDefined [0xB0, 0xCD, 0x1B, 0xFC, 0x31, 0x7D, 0xAA, 0x49,
          0x93, 0x6A, 0xA4, 0x60, 0x0D, 0x9D, 0xD0, 0x84] [] 0, []⟩
        = .err .Unsupported)
    ∧ compositeExtract [crc32Extract, lzmaExtract noneDecoder]
        ⟨.GuidDefined [0xB0, 0xCD, 0x1B, 0xFC, 0x31, 0x7D, 0xAA, 0x49,
          0x93, 0x6A, 0xA4, 0x60, 0x0D, 0x9D, 0xD0, 0x84] [] 0, []⟩
        = .err .Unsupported :=
  ⟨⟨by decide, (guid_matching_exact _ [] 0 [] noneDecoder).1 (by decide)⟩,
   ⟨by decide, (guid_matching_exact _ [] 0 [] noneDecoder).2.1 (by decide)⟩,
   (guid_matching_exact _ [] 0 [] noneDecoder).2.2 (by decide) (by decide)⟩

/-- Claim C9: each extractor is a pure function of its single section
input. The extractor structs carry no fields, so any two instances agree on
every section; two successive invocations on the same (immutable) section
value yield identical results. -/
theorem extractor_purity (a b : Crc32SectionExtractor)
    (c d : LzmaSectionExtractor) (p q : CompositeSectionExtractor)
    (dec : List Nat → Option (List Nat)) (s : Section) :
    a.extract s = b.extract s
    ∧ c.extract dec s = d.extract dec s
    ∧ p.extract dec s = q.extract dec s
    ∧ (extractTwice (fun t => a.extract t) s).1
        = (extractTwice (fun t => a.extract t) s).2
    ∧ (extractTwice (fun t => c.extract dec t) s).1
        = (extractTwice (fun t => c.extract dec t) s).2
    ∧ (extractTwice (fun t => p.extract dec t) s).1
        = (extractTwice (fun t => p.extract dec t) s).2 :=
  ⟨rfl, rfl, rfl, rfl, rfl, rfl⟩

/-- Claim C10: for every section whose header is not the type-identified
(GuidDefined) variant, the CRC32 extractor, the LZMA extractor and the
composite dispatcher all return Unsupported — by constructor disjointness
neither `DataCorrupt` nor a panic; the non-GuidDefined header is never
interpreted. -/
theorem non_guid_defined_unsupported (tag n : Nat) (data : List Nat)
    (dec : List Nat → Option (List Nat)) :
    crc32Extract ⟨.Other tag n, data⟩ = .err .Unsupported
    ∧ lzmaExtract dec ⟨.Other tag n, data⟩ = .err .Unsupported
    ∧ CompositeSectionExtractor.new.extract dec ⟨.Other tag n, data⟩
        = .err .Unsupported :=
  ⟨rfl, rfl, rfl⟩

end Patina
